import Mathlib

/-!
Verification of `moe/optimal_learning/EPI/src/python/cpp_wrappers/log_likelihood.py`.

The Python file is a thin wrapper around a native computational engine
(`moe.build.GPP`, imported as `C_GP`).  The wrapper's own logic — argument
defaulting, in-place mutation of the caller's objects, deep copies at
construction, class hierarchy dispatch for Hessian support — is embedded
faithfully below.  The native engine and the marshalling helpers
(`cpp_utils.cppify`, which flattens arrays bijectively before the foreign
call) are not part of the wrapped file; they are kept abstract as pure
functions, and where a claim depends on the engine's behaviour the engine
is modelled from the specification (each such definition says so in its
doc comment).

Numbers are modelled by `ℚ` (the Python layer only moves floats around;
no float rounding happens in the wrapped file itself).
-/

/-- Closed interval `[lo, hi]`, mirroring `geometry_utils.ClosedInterval`
(constructed in `log_likelihood.py` line 107 as `ClosedInterval(-2.0, 1.0)`). -/
structure ClosedInterval where
  lo : ℚ
  hi : ℚ
deriving Repr, DecidableEq

/-- The covariance object as used by the wrapper: it exposes
`get_hyperparameters` / `set_hyperparameters` / `num_hyperparameters`
(the only members `log_likelihood.py` touches). -/
structure Covariance where
  hyperparameters : List ℚ
deriving Repr, DecidableEq

/-- Number of hyperparameters exposed by the covariance object. -/
def Covariance.num_hyperparameters (c : Covariance) : Nat :=
  c.hyperparameters.length

/-- Read the covariance object's current hyperparameters. -/
def Covariance.get_hyperparameters (c : Covariance) : List ℚ :=
  c.hyperparameters

/-- Overwrite the covariance object's hyperparameters (in Python this is an
in-place mutation; here the updated object is returned). -/
def Covariance.set_hyperparameters (c : Covariance) (hyperparameters : List ℚ) : Covariance :=
  { c with hyperparameters := hyperparameters }

/-- The historical-data container as used by the wrapper: `dim`,
`num_sampled`, `points_sampled`, `points_sampled_value`, `noise_variance`
(the only members `log_likelihood.py` touches). -/
structure HistoricalData where
  dim : Nat
  num_sampled : Nat
  points_sampled : List (List ℚ)
  points_sampled_value : List ℚ
  noise_variance : List ℚ
deriving Repr, DecidableEq

/-- The `C_GP.LogLikelihoodTypes` enum (see gpp_python_common.cpp per the
source comments): which log likelihood-like measure to compute. -/
inductive LogLikelihoodTypes where
  | log_marginal_likelihood
  | leave_one_out_log_likelihood
deriving Repr, DecidableEq

/-- Modelled from the spec: the `status` dict handed to the native engine is
"a mapping with at least the key `found_improvement : bool`" (spec section 6).
`none` models the key being absent (a fresh `{}` dict). -/
structure Status where
  found_improvement : Option Bool
deriving Repr, DecidableEq

/-- A fresh empty status dict, `{}` (line 117 of the source). -/
def Status.empty : Status :=
  { found_improvement := none }

/-- Modelled from the spec: `C_GP.RandomnessSourceContainer` is native code
not present under src/.  Per the spec it is a pool of per-thread random
streams ("RandomStreamPool ... one stream per worker thread", spec sections
2 and 4.3) carrying a uniform-generator seed and a normal-RNG seed; a seed
is `none` until one of the seeding calls below has been made. -/
structure RandomnessSourceContainer where
  num_threads : Nat
  uniformSeed : Option Nat
  normalSeed : Option Nat
deriving Repr, DecidableEq

/-- The `C_GP.RandomnessSourceContainer(max_num_threads)` constructor
(line 111 of the source): a pool sized for `max_num_threads` threads,
not yet seeded. -/
def RandomnessSourceContainer.create (max_num_threads : Nat) : RandomnessSourceContainer :=
  { num_threads := max_num_threads, uniformSeed := none, normalSeed := none }

/-- Modelled from the spec: record the uniform-generator seed (line 112 of
the source passes the literal `0`).  The spec says the pool is "created
internally with a fixed default seed if not supplied by the caller"
(section 4.3), so the model keeps the seed deterministically. -/
def RandomnessSourceContainer.SetRandomizedUniformGeneratorSeed
    (r : RandomnessSourceContainer) (seed : Nat) : RandomnessSourceContainer :=
  { r with uniformSeed := some seed }

/-- Modelled from the spec: record the normal-RNG seed (line 113 of the
source passes the literal `0`); see `SetRandomizedUniformGeneratorSeed`. -/
def RandomnessSourceContainer.SetRandomizedNormalRNGSeed
    (r : RandomnessSourceContainer) (seed : Nat) : RandomnessSourceContainer :=
  { r with normalSeed := some seed }

/-- The local-optimizer kinds recognized by the optimization parameters
(spec section 6: `{none, gradient_ascent, newton}`; the source docstring
lists "null ('dumb' search), gradient descent, newton"). -/
inductive OptimizerKind where
  | null
  | gradient_ascent
  | newton
deriving Repr, DecidableEq

/-- Modelled from the spec:
`cpp_wrappers.optimization_parameters.HyperparameterOptimizationParameters`
is not under src/.  Per spec section 6 it carries the optimizer choice and
its tunables, plus the `objective_type` field that line 119 of the source
overwrites in place. -/
structure HyperparameterOptimizationParameters where
  objective_type : LogLikelihoodTypes
  optimizer_kind : OptimizerKind
  num_multistarts : Nat
  max_iterations : Nat
  tolerance : ℚ
deriving Repr, DecidableEq

/-- Modelled from the spec: the native engine `moe.build.GPP` (`C_GP`) is a
C++ extension not present under src/.  Its scalar entry points are kept
abstract, as pure functions of exactly the data the Python wrapper marshals
to them (the bijective `cpp_utils.cppify` flattening is absorbed into the
signature; arguments keep their structured Python shape).  `lhsSample` is
the engine's Latin-Hypercube generation of initial guesses (spec section
4.3 step 1) and `refine` its local-optimizer run (spec section 4.2). -/
structure CGPEngine where
  compute_log_likelihood :
    List (List ℚ) → List ℚ → Nat → Nat → LogLikelihoodTypes → List ℚ → List ℚ → ℚ
  compute_hyperparameter_grad_log_likelihood :
    List (List ℚ) → List ℚ → Nat → Nat → LogLikelihoodTypes → List ℚ → List ℚ → List ℚ
  lhsSample :
    List ClosedInterval → RandomnessSourceContainer → Nat → List (List ℚ)
  refine :
    HyperparameterOptimizationParameters → List ClosedInterval → List ℚ → List ℚ

/-- The `LogLikelihood` class (source lines 171-269): an evaluator holding a
private covariance object, a private historical-data object and the
likelihood-kind tag.  Pythonic attribute names are kept. -/
structure LogLikelihood where
  _covariance : Covariance
  _historical_data : HistoricalData
  _log_likelihood_type : LogLikelihoodTypes
deriving Repr, DecidableEq

/-- `LogLikelihood.__init__` (source lines 183-197): stores deep copies of
the two constructor arguments plus the likelihood-kind tag.  On plain
values a deep copy is the value itself; the aliasing content of
`copy.deepcopy` is captured by the heap-level constructor
`LogLikelihood.init_on_heap` below. -/
def LogLikelihood.init (covariance_function : Covariance) (historical_data : HistoricalData)
    (log_likelihood_type : LogLikelihoodTypes := LogLikelihoodTypes.log_marginal_likelihood) :
    LogLikelihood :=
  { _covariance := covariance_function
    _historical_data := historical_data
    _log_likelihood_type := log_likelihood_type }

/-- The `dim` property (source lines 199-202). -/
def LogLikelihood.dim (e : LogLikelihood) : Nat :=
  e._historical_data.dim

/-- The `num_hyperparameters` property (source lines 204-207). -/
def LogLikelihood.num_hyperparameters (e : LogLikelihood) : Nat :=
  e._covariance.num_hyperparameters

/-- The `problem_size` property (source lines 209-212). -/
def LogLikelihood.problem_size (e : LogLikelihood) : Nat :=
  e.num_hyperparameters

/-- `compute_log_likelihood` (source lines 214-232): first mutates the
covariance object via `set_hyperparameters`, then calls
`C_GP.compute_log_likelihood` on the historical data, the likelihood-kind
tag and the argument hyperparameters.  The pair returned is (the evaluator
after the in-place mutation, the value returned to the caller). -/
def LogLikelihood.compute_log_likelihood (e : LogLikelihood) (eng : CGPEngine)
    (hyperparameters : List ℚ) : LogLikelihood × ℚ :=
  let e' := { e with _covariance := e._covariance.set_hyperparameters hyperparameters }
  (e', eng.compute_log_likelihood
    e'._historical_data.points_sampled
    e'._historical_data.points_sampled_value
    e'.dim
    e'._historical_data.num_sampled
    e'._log_likelihood_type
    hyperparameters
    e'._historical_data.noise_variance)

/-- `compute_objective_function` (source lines 234-236): wrapper for
`compute_log_likelihood`. -/
def LogLikelihood.compute_objective_function (e : LogLikelihood) (eng : CGPEngine)
    (current_point : List ℚ) : LogLikelihood × ℚ :=
  e.compute_log_likelihood eng current_point

/-- `compute_grad_log_likelihood` (source lines 238-257): same shape as
`compute_log_likelihood` but calling
`C_GP.compute_hyperparameter_grad_log_likelihood` (the trailing
`numpy.array` conversion is the identity on the list of values). -/
def LogLikelihood.compute_grad_log_likelihood (e : LogLikelihood) (eng : CGPEngine)
    (hyperparameters : List ℚ) : LogLikelihood × List ℚ :=
  let e' := { e with _covariance := e._covariance.set_hyperparameters hyperparameters }
  (e', eng.compute_hyperparameter_grad_log_likelihood
    e'._historical_data.points_sampled
    e'._historical_data.points_sampled_value
    e'.dim
    e'._historical_data.num_sampled
    e'._log_likelihood_type
    hyperparameters
    e'._historical_data.noise_variance)

/-- `compute_grad_objective_function` (source lines 259-261). -/
def LogLikelihood.compute_grad_objective_function (e : LogLikelihood) (eng : CGPEngine)
    (current_point : List ℚ) : LogLikelihood × List ℚ :=
  e.compute_grad_log_likelihood eng current_point

/-- `LogLikelihood.compute_hessian_log_likelihood` (source lines 263-265):
raises `NotImplementedError` unconditionally, for every instance of the
base class and of any subclass that does not override it
(`LogMarginalLikelihood` does not).  `Except.error` models the raise. -/
def LogLikelihood.compute_hessian_log_likelihood (_e : LogLikelihood)
    (_hyperparameters : List ℚ) : Except String (List (List ℚ)) :=
  Except.error "Currently C++ does not expose Hessian computation of log likelihood-like metrics."

/-- `compute_hessian_objective_function` (source lines 267-269): wrapper for
`compute_hessian_log_likelihood`.  (Dynamic dispatch: for instances of the
base class and of `LogMarginalLikelihood` this resolves to the base
`compute_hessian_log_likelihood` above.) -/
def LogLikelihood.compute_hessian_objective_function (e : LogLikelihood)
    (current_point : List ℚ) : Except String (List (List ℚ)) :=
  e.compute_hessian_log_likelihood current_point

/-- `LogMarginalLikelihood.__init__` (source lines 300-302): the superclass
constructor with the `log_marginal_likelihood` tag.  The subclass overrides
no method. -/
def LogMarginalLikelihood.init (covariance_function : Covariance)
    (historical_data : HistoricalData) : LogLikelihood :=
  LogLikelihood.init covariance_function historical_data
    LogLikelihoodTypes.log_marginal_likelihood

/-- `LeaveOneOutLogLikelihood.__init__` (source lines 334-336): the
superclass constructor with the `leave_one_out_log_likelihood` tag. -/
def LeaveOneOutLogLikelihood.init (covariance_function : Covariance)
    (historical_data : HistoricalData) : LogLikelihood :=
  LogLikelihood.init covariance_function historical_data
    LogLikelihoodTypes.leave_one_out_log_likelihood

/-- `LeaveOneOutLogLikelihood.compute_hessian_log_likelihood` (source lines
338-340): the override raising `NotImplementedError` with the LOO-CV
message; this is what dynamic dispatch selects on every
`LeaveOneOutLogLikelihood` instance. -/
def LeaveOneOutLogLikelihood.compute_hessian_log_likelihood (_e : LogLikelihood)
    (_hyperparameters : List ℚ) : Except String (List (List ℚ)) :=
  Except.error "Currently C++ does not support Hessian computation of LOO-CV."

/-- The objective the engine evaluates for a given evaluator: the scalar
`C_GP.compute_log_likelihood` applied to that evaluator's historical data,
likelihood-kind tag and the given hyperparameter vector (exactly the
argument list that `compute_log_likelihood`, source lines 224-232,
marshals). -/
def LogLikelihood.objectiveAt (e : LogLikelihood) (eng : CGPEngine)
    (hyperparameters : List ℚ) : ℚ :=
  eng.compute_log_likelihood
    e._historical_data.points_sampled
    e._historical_data.points_sampled_value
    e._historical_data.dim
    e._historical_data.num_sampled
    e._log_likelihood_type
    hyperparameters
    e._historical_data.noise_variance

/-- Modelled from the spec:
`C_GP.evaluate_log_likelihood_at_hyperparameter_list` (the C++ loop in
GPP_python_model_selection.cpp, not under src/).  Per spec sections 4.4 and
8 it is the "independent evaluation of `evaluator.compute` at each supplied
point"; the template hyperparameters, the redundant count and the thread
budget do not affect the values. -/
def CGPEngine.evaluate_log_likelihood_at_hyperparameter_list (e : CGPEngine)
    (hyperparameters_to_evaluate : List (List ℚ))
    (points_sampled : List (List ℚ)) (points_sampled_value : List ℚ)
    (dim num_sampled : Nat) (log_likelihood_type : LogLikelihoodTypes)
    (_hyperparameters : List ℚ) (noise_variance : List ℚ)
    (_num_to_eval _max_num_threads : Nat) : List ℚ :=
  hyperparameters_to_evaluate.map (fun h =>
    e.compute_log_likelihood points_sampled points_sampled_value dim num_sampled
      log_likelihood_type h noise_variance)

/-- Modelled from the spec: `C_GP.multistart_hyperparameter_optimization`
(the C++ multistart driver, not under src/), following spec section 4.3:
generate `num_multistarts` initial points by Latin-Hypercube sampling over
the domain; refine each with the configured local optimizer; select the
maximizer of the objective with first-found tie-break; compare the best
value against the value at the first initial point; on improvement return
the best point with `found_improvement = true`, otherwise return exactly
the first initial point with `found_improvement = false`.  The status dict
is mutated in place (here: returned updated).  The degenerate case of an
empty start list echoes the input hyperparameters (per spec
`num_multistarts > 0`, so a real sampler never produces it). -/
def CGPEngine.multistart_hyperparameter_optimization (e : CGPEngine)
    (params : HyperparameterOptimizationParameters)
    (domain : List ClosedInterval)
    (points_sampled : List (List ℚ)) (points_sampled_value : List ℚ)
    (dim num_sampled : Nat)
    (hyperparameters : List ℚ) (noise_variance : List ℚ)
    (_max_num_threads : Nat)
    (randomness : RandomnessSourceContainer)
    (status : Status) : List ℚ × Status :=
  let value : List ℚ → ℚ := fun h =>
    e.compute_log_likelihood points_sampled points_sampled_value dim num_sampled
      params.objective_type h noise_variance
  match e.lhsSample domain randomness params.num_multistarts with
  | [] => (hyperparameters, { status with found_improvement := some false })
  | first :: rest =>
      let candidates := (first :: rest).map (fun s => e.refine params domain s)
      let best := candidates.foldl
        (fun acc c => if acc.2 < value c then (c, value c) else acc)
        (first, value first)
      if value first < best.2 then
        (best.1, { status with found_improvement := some true })
      else
        (first, { status with found_improvement := some false })

/-- The domain actually used by `multistart_hyperparameter_optimization`
(source lines 103-107): Python's `if not hyperparameter_domain:` treats
both `None` and an empty list as absent and builds a `ClosedInterval(-2.0,
1.0)` per hyperparameter dimension by the loop over
`range(num_hyperparameters)`. -/
def multistartDomainArg (log_likelihood_evaluator : LogLikelihood)
    (hyperparameter_domain : Option (List ClosedInterval)) : List ClosedInterval :=
  if (hyperparameter_domain.getD []).isEmpty then
    (List.range log_likelihood_evaluator.num_hyperparameters).map
      (fun _ => ClosedInterval.mk (-2) 1)
  else
    hyperparameter_domain.getD []

/-- The randomness container actually used by
`multistart_hyperparameter_optimization` (source lines 109-113): a
caller-supplied container is used as is; on `None` a fresh container sized
for `max_num_threads` is created and both seeding calls are made with the
literal seed `0`. -/
def multistartRandomnessArg (randomness : Option RandomnessSourceContainer)
    (max_num_threads : Nat) : RandomnessSourceContainer :=
  match randomness with
  | some r => r
  | none =>
      ((RandomnessSourceContainer.create max_num_threads).SetRandomizedUniformGeneratorSeed
        0).SetRandomizedNormalRNGSeed 0

/-- What a call to the module-level `multistart_hyperparameter_optimization`
leaves behind: the returned array, plus the post-call contents of the two
caller-owned mutable arguments (the parameters object, mutated at line 119,
and the status dict, mutated inside the engine — `none` when the caller
passed no dict, since the fresh local `{}` of line 117 is unreachable after
the call). -/
structure MultistartCallResult where
  result : List ℚ
  paramsOut : HyperparameterOptimizationParameters
  statusOut : Option Status
deriving Repr, DecidableEq

/-- Module-level `multistart_hyperparameter_optimization` (source lines
60-133): default the domain (lines 103-107), default and seed the
randomness container (lines 109-113), default the status dict (lines
115-117), overwrite `objective_type` on the caller's parameters object
(line 119), call the engine (lines 120-132), return `numpy.array` of the
result (line 133; the identity on the list of values). -/
def multistart_hyperparameter_optimization (eng : CGPEngine)
    (log_likelihood_evaluator : LogLikelihood)
    (hyperparameter_optimization_parameters : HyperparameterOptimizationParameters)
    (hyperparameter_domain : Option (List ClosedInterval) := none)
    (randomness : Option RandomnessSourceContainer := none)
    (max_num_threads : Nat := 1)
    (status : Option Status := none) : MultistartCallResult :=
  let domainArg := multistartDomainArg log_likelihood_evaluator hyperparameter_domain
  let randomnessArg := multistartRandomnessArg randomness max_num_threads
  let statusDict := status.getD Status.empty
  let params := { hyperparameter_optimization_parameters with
    objective_type := log_likelihood_evaluator._log_likelihood_type }
  let out := eng.multistart_hyperparameter_optimization params domainArg
    log_likelihood_evaluator._historical_data.points_sampled
    log_likelihood_evaluator._historical_data.points_sampled_value
    log_likelihood_evaluator._historical_data.dim
    log_likelihood_evaluator._historical_data.num_sampled
    log_likelihood_evaluator._covariance.get_hyperparameters
    log_likelihood_evaluator._historical_data.noise_variance
    max_num_threads randomnessArg statusDict
  { result := out.1
    paramsOut := params
    statusOut := match status with
      | none => none
      | some _ => some out.2 }

/-- Module-level `evaluate_log_likelihood_at_hyperparameter_list` (source
lines 136-168): marshal the evaluator's data and the list of
hyperparameter vectors to the engine's batch entry point (the trailing
`numpy.array` is the identity on the list of values). -/
def evaluate_log_likelihood_at_hyperparameter_list (eng : CGPEngine)
    (log_likelihood_evaluator : LogLikelihood)
    (hyperparameters_to_evaluate : List (List ℚ))
    (max_num_threads : Nat := 1) : List ℚ :=
  eng.evaluate_log_likelihood_at_hyperparameter_list
    hyperparameters_to_evaluate
    log_likelihood_evaluator._historical_data.points_sampled
    log_likelihood_evaluator._historical_data.points_sampled_value
    log_likelihood_evaluator._historical_data.dim
    log_likelihood_evaluator._historical_data.num_sampled
    log_likelihood_evaluator._log_likelihood_type
    log_likelihood_evaluator._covariance.get_hyperparameters
    log_likelihood_evaluator._historical_data.noise_variance
    hyperparameters_to_evaluate.length
    max_num_threads

/-- A heap of mutable Python objects: covariance cells and historical-data
cells, addressed by index.  This is the reference semantics needed to state
what `copy.deepcopy` in the constructor (source lines 194-195) buys the
caller: the evaluator's cells are fresh, so mutating the caller's original
objects afterwards cannot reach them. -/
structure PyHeap where
  covCells : List Covariance
  dataCells : List HistoricalData
deriving Repr, DecidableEq

/-- Read a covariance cell (a dangling index reads a default object). -/
def PyHeap.getCov (hp : PyHeap) (r : Nat) : Covariance :=
  hp.covCells.getD r { hyperparameters := [] }

/-- Overwrite a covariance cell in place. -/
def PyHeap.setCov (hp : PyHeap) (r : Nat) (c : Covariance) : PyHeap :=
  { hp with covCells := hp.covCells.set r c }

/-- Read a historical-data cell (a dangling index reads a default object). -/
def PyHeap.getData (hp : PyHeap) (r : Nat) : HistoricalData :=
  hp.dataCells.getD r
    { dim := 0, num_sampled := 0, points_sampled := [], points_sampled_value := []
      noise_variance := [] }

/-- Overwrite a historical-data cell in place. -/
def PyHeap.setData (hp : PyHeap) (r : Nat) (d : HistoricalData) : PyHeap :=
  { hp with dataCells := hp.dataCells.set r d }

/-- Allocate a fresh covariance cell holding `c`; returns its index. -/
def PyHeap.allocCov (hp : PyHeap) (c : Covariance) : PyHeap × Nat :=
  ({ hp with covCells := hp.covCells ++ [c] }, hp.covCells.length)

/-- Allocate a fresh historical-data cell holding `d`; returns its index. -/
def PyHeap.allocData (hp : PyHeap) (d : HistoricalData) : PyHeap × Nat :=
  ({ hp with dataCells := hp.dataCells ++ [d] }, hp.dataCells.length)

/-- A `LogLikelihood` instance under reference semantics: its two private
attributes are references into the heap, plus the immutable kind tag. -/
structure LogLikelihoodRef where
  covRef : Nat
  dataRef : Nat
  typ : LogLikelihoodTypes
deriving Repr, DecidableEq

/-- `LogLikelihood.__init__` under reference semantics (source lines
194-197): `copy.deepcopy` allocates a fresh cell holding the current value
of the caller's object, for the covariance and for the historical data;
the evaluator keeps only the fresh references. -/
def LogLikelihood.init_on_heap (hp : PyHeap) (covRef dataRef : Nat)
    (log_likelihood_type : LogLikelihoodTypes) : PyHeap × LogLikelihoodRef :=
  let a := hp.allocCov (hp.getCov covRef)
  let b := a.1.allocData (a.1.getData dataRef)
  (b.1, { covRef := a.2, dataRef := b.2, typ := log_likelihood_type })

/-- The plain value of a heap-resident evaluator: dereference its two
cells.  Every method of the class reads its attributes through this. -/
def LogLikelihoodRef.asObj (e : LogLikelihoodRef) (hp : PyHeap) : LogLikelihood :=
  { _covariance := hp.getCov e.covRef
    _historical_data := hp.getData e.dataRef
    _log_likelihood_type := e.typ }

/-- The `dim` property under reference semantics. -/
def LogLikelihoodRef.dim (e : LogLikelihoodRef) (hp : PyHeap) : Nat :=
  (e.asObj hp).dim

/-- The `num_hyperparameters` property under reference semantics. -/
def LogLikelihoodRef.num_hyperparameters (e : LogLikelihoodRef) (hp : PyHeap) : Nat :=
  (e.asObj hp).num_hyperparameters

/-- `compute_log_likelihood` under reference semantics: run the value-level
method on the dereferenced object, then write the mutated covariance back
through the evaluator's own reference (the method touches no other cell). -/
def LogLikelihoodRef.compute_log_likelihood (e : LogLikelihoodRef) (hp : PyHeap)
    (eng : CGPEngine) (hyperparameters : List ℚ) : PyHeap × ℚ :=
  let r := LogLikelihood.compute_log_likelihood (e.asObj hp) eng hyperparameters
  (hp.setCov e.covRef r.1._covariance, r.2)

/-- `compute_grad_log_likelihood` under reference semantics; see
`LogLikelihoodRef.compute_log_likelihood`. -/
def LogLikelihoodRef.compute_grad_log_likelihood (e : LogLikelihoodRef) (hp : PyHeap)
    (eng : CGPEngine) (hyperparameters : List ℚ) : PyHeap × List ℚ :=
  let r := LogLikelihood.compute_grad_log_likelihood (e.asObj hp) eng hyperparameters
  (hp.setCov e.covRef r.1._covariance, r.2)

/-- Concrete covariance object used by the witness instantiations. -/
def wCov : Covariance :=
  { hyperparameters := [1] }

/-- Concrete historical data used by the witness instantiations. -/
def wData : HistoricalData :=
  { dim := 1, num_sampled := 1, points_sampled := [[0]], points_sampled_value := [0]
    noise_variance := [1] }

/-- Concrete evaluator used by the witness instantiations. -/
def wEval : LogLikelihood :=
  LogLikelihood.init wCov wData LogLikelihoodTypes.log_marginal_likelihood

/-- Concrete engine used by the witness instantiations: constant objective,
two Latin-Hypercube samples, identity refinement. -/
def wEngine : CGPEngine :=
  { compute_log_likelihood := fun _ _ _ _ _ _ _ => 0
    compute_hyperparameter_grad_log_likelihood := fun _ _ _ _ _ _ _ => []
    lhsSample := fun _ _ _ => [[0], [1]]
    refine := fun _ _ s => s }

/-- Concrete optimization parameters used by the witness instantiations. -/
def wParams : HyperparameterOptimizationParameters :=
  { objective_type := LogLikelihoodTypes.leave_one_out_log_likelihood
    optimizer_kind := OptimizerKind.newton
    num_multistarts := 2
    max_iterations := 10
    tolerance := 1 }

/-- Concrete domain used by the witness instantiations. -/
def wDomain : List ClosedInterval :=
  [{ lo := -1, hi := 1 }]

/-- Concrete randomness container used by the witness instantiations. -/
def wRandomness : RandomnessSourceContainer :=
  { num_threads := 1, uniformSeed := some 0, normalSeed := some 0 }

/-- Concrete status dict used by the witness instantiations. -/
def wStatus : Status :=
  { found_improvement := none }

/-- Concrete one-cell-each heap used by the witness instantiations. -/
def wHeap : PyHeap :=
  { covCells := [wCov], dataCells := [wData] }

/-- The heap after constructing an evaluator on `wHeap` from refs 0/0:
both cells were deep-copied into fresh cells 1/1. -/
def wHeap1 : PyHeap :=
  { covCells := [wCov, wCov], dataCells := [wData, wData] }

/-- The evaluator constructed on `wHeap`: it references the fresh cells. -/
def wERef : LogLikelihoodRef :=
  { covRef := 1, dataRef := 1, typ := LogLikelihoodTypes.log_marginal_likelihood }

/-- A second covariance value, used to overwrite the caller's original. -/
def wCov2 : Covariance :=
  { hyperparameters := [7, 8] }

/-- A second historical-data value, used to overwrite the caller's original. -/
def wData2 : HistoricalData :=
  { dim := 2, num_sampled := 2, points_sampled := [[1], [2]], points_sampled_value := [3, 4]
    noise_variance := [2, 2] }

/-- `wHeap1` after the caller mutates both original objects in place. -/
def wHeap2 : PyHeap :=
  (wHeap1.setCov 0 wCov2).setData 0 wData2

/-- C1 counterexample: on a `LogMarginalLikelihood` evaluator over concrete
data, `compute_hessian_log_likelihood` does raise the unsupported-operation
error (the base-class method, source lines 263-265, raises
`NotImplementedError` unconditionally and `LogMarginalLikelihood` does not
override it), contradicting the claim that it does not raise for LML. -/
theorem lml_compute_hessian_raises_counterexample :
    LogLikelihood.compute_hessian_log_likelihood (LogMarginalLikelihood.init wCov wData) [1]
      = Except.error "Currently C++ does not expose Hessian computation of log likelihood-like metrics." :=
  rfl

/-- C1 (amended): Hessian computation is unsupported for LML as well: for
every covariance, historical data and hyperparameter vector, calling
`compute_hessian_log_likelihood` (or `compute_hessian_objective_function`)
on a `LogMarginalLikelihood` evaluator raises `NotImplementedError` with
the base-class message. -/
theorem compute_hessian_unsupported_for_lml (cov : Covariance) (data : HistoricalData)
    (hyperparameters : List ℚ) :
    LogLikelihood.compute_hessian_log_likelihood (LogMarginalLikelihood.init cov data)
        hyperparameters
      = Except.error "Currently C++ does not expose Hessian computation of log likelihood-like metrics." ∧
    LogLikelihood.compute_hessian_objective_function (LogMarginalLikelihood.init cov data)
        hyperparameters
      = Except.error "Currently C++ does not expose Hessian computation of log likelihood-like metrics." :=
  ⟨rfl, rfl⟩

/-- C2: for every covariance, historical data and hyperparameter vector,
`compute_hessian_log_likelihood` on a `LeaveOneOutLogLikelihood` evaluator
fails with the unsupported-operation error (the override at source lines
338-340 raises `NotImplementedError`; it never returns a value and never
downgrades). -/
theorem loo_compute_hessian_always_raises (cov : Covariance) (data : HistoricalData)
    (hyperparameters : List ℚ) :
    LeaveOneOutLogLikelihood.compute_hessian_log_likelihood
        (LeaveOneOutLogLikelihood.init cov data) hyperparameters
      = Except.error "Currently C++ does not support Hessian computation of LOO-CV." :=
  rfl

/-- C6: every call to `compute_log_likelihood` or
`compute_grad_log_likelihood` mutates the kernel's hyperparameter state:
afterwards the evaluator's covariance object holds exactly the
hyperparameter vector passed as the argument, and no other evaluator state
(historical data, likelihood-kind tag) is modified. -/
theorem compute_mutates_covariance_hyperparameters_only (eng : CGPEngine)
    (e : LogLikelihood) (hyperparameters : List ℚ) :
    ((e.compute_log_likelihood eng hyperparameters).1._covariance
        = e._covariance.set_hyperparameters hyperparameters ∧
      (e.compute_log_likelihood eng hyperparameters).1._covariance.get_hyperparameters
        = hyperparameters ∧
      (e.compute_log_likelihood eng hyperparameters).1._historical_data = e._historical_data ∧
      (e.compute_log_likelihood eng hyperparameters).1._log_likelihood_type
        = e._log_likelihood_type) ∧
    ((e.compute_grad_log_likelihood eng hyperparameters).1._covariance
        = e._covariance.set_hyperparameters hyperparameters ∧
      (e.compute_grad_log_likelihood eng hyperparameters).1._covariance.get_hyperparameters
        = hyperparameters ∧
      (e.compute_grad_log_likelihood eng hyperparameters).1._historical_data
        = e._historical_data ∧
      (e.compute_grad_log_likelihood eng hyperparameters).1._log_likelihood_type
        = e._log_likelihood_type) :=
  ⟨⟨rfl, rfl, rfl, rfl⟩, ⟨rfl, rfl, rfl, rfl⟩⟩

/-- C7: for every engine, evaluator and list of hyperparameter vectors,
`evaluate_log_likelihood_at_hyperparameter_list` returns exactly the list
of per-vector `compute_log_likelihood` values, elementwise in order. -/
theorem evaluate_list_matches_elementwise_compute (eng : CGPEngine) (ev : LogLikelihood)
    (hyperparameters_to_evaluate : List (List ℚ)) (max_num_threads : Nat) :
    evaluate_log_likelihood_at_hyperparameter_list eng ev hyperparameters_to_evaluate
        max_num_threads
      = hyperparameters_to_evaluate.map (fun h => (ev.compute_log_likelihood eng h).2) :=
  rfl

/-- C8: a call with `randomness = None` behaves exactly like a call passing
a pool created for `max_num_threads` threads with both seeding calls made
with seed `0`; that pool is sized for `max_num_threads` and carries the
fixed default seeds. -/
theorem multistart_default_randomness_pool_seeded_zero (eng : CGPEngine)
    (ev : LogLikelihood) (p : HyperparameterOptimizationParameters)
    (d : Option (List ClosedInterval)) (max_num_threads : Nat) (st : Option Status) :
    multistart_hyperparameter_optimization eng ev p d none max_num_threads st
      = multistart_hyperparameter_optimization eng ev p d
          (some (((RandomnessSourceContainer.create
            max_num_threads).SetRandomizedUniformGeneratorSeed 0).SetRandomizedNormalRNGSeed 0))
          max_num_threads st ∧
    (((RandomnessSourceContainer.create
        max_num_threads).SetRandomizedUniformGeneratorSeed 0).SetRandomizedNormalRNGSeed
        0).num_threads = max_num_threads ∧
    (((RandomnessSourceContainer.create
        max_num_threads).SetRandomizedUniformGeneratorSeed 0).SetRandomizedNormalRNGSeed
        0).uniformSeed = some 0 ∧
    (((RandomnessSourceContainer.create
        max_num_threads).SetRandomizedUniformGeneratorSeed 0).SetRandomizedNormalRNGSeed
        0).normalSeed = some 0 :=
  ⟨rfl, rfl, rfl, rfl⟩

/-- C9: with `status = None` the wrapper creates a fresh empty dict, hands
it to the engine and discards it — the call's `statusOut` is `none` and the
returned value is just the engine result's hyperparameter vector — whereas
a caller-supplied dict is mutated in place and readable after the call. -/
theorem multistart_status_none_discards_engine_status (eng : CGPEngine)
    (ev : LogLikelihood) (p : HyperparameterOptimizationParameters)
    (d : Option (List ClosedInterval)) (r : Option RandomnessSourceContainer)
    (max_num_threads : Nat) :
    (multistart_hyperparameter_optimization eng ev p d r max_num_threads none).statusOut
      = none ∧
    (multistart_hyperparameter_optimization eng ev p d r max_num_threads none).result
      = (eng.multistart_hyperparameter_optimization
          { p with objective_type := ev._log_likelihood_type }
          (multistartDomainArg ev d)
          ev._historical_data.points_sampled ev._historical_data.points_sampled_value
          ev._historical_data.dim ev._historical_data.num_sampled
          ev._covariance.get_hyperparameters ev._historical_data.noise_variance
          max_num_threads (multistartRandomnessArg r max_num_threads) Status.empty).1 ∧
    ∀ st : Status,
      (multistart_hyperparameter_optimization eng ev p d r max_num_threads
          (some st)).statusOut
        = some (eng.multistart_hyperparameter_optimization
            { p with objective_type := ev._log_likelihood_type }
            (multistartDomainArg ev d)
            ev._historical_data.points_sampled ev._historical_data.points_sampled_value
            ev._historical_data.dim ev._historical_data.num_sampled
            ev._covariance.get_hyperparameters ev._historical_data.noise_variance
            max_num_threads (multistartRandomnessArg r max_num_threads) st).2 :=
  ⟨rfl, rfl, fun _ => rfl⟩

/-- C10: every call leaves the caller's parameters object with
`objective_type` overwritten by the evaluator's `_log_likelihood_type`
(all other fields untouched), regardless of what the caller had set, and
the engine is invoked with that overwritten object. -/
theorem multistart_overwrites_params_objective_type (eng : CGPEngine)
    (ev : LogLikelihood) (p : HyperparameterOptimizationParameters)
    (d : Option (List ClosedInterval)) (r : Option RandomnessSourceContainer)
    (max_num_threads : Nat) (st : Option Status) :
    (multistart_hyperparameter_optimization eng ev p d r max_num_threads st).paramsOut
      = { p with objective_type := ev._log_likelihood_type } ∧
    (multistart_hyperparameter_optimization eng ev p d r max_num_threads st).result
      = (eng.multistart_hyperparameter_optimization
          { p with objective_type := ev._log_likelihood_type }
          (multistartDomainArg ev d)
          ev._historical_data.points_sampled ev._historical_data.points_sampled_value
          ev._historical_data.dim ev._historical_data.num_sampled
          ev._covariance.get_hyperparameters ev._historical_data.noise_variance
          max_num_threads (multistartRandomnessArg r max_num_threads)
          (st.getD Status.empty)).1 :=
  ⟨rfl, rfl⟩

/-- Helper: the loop of source lines 105-107 builds the same list as
`List.replicate`: one `ClosedInterval(-2, 1)` per hyperparameter. -/
theorem range_map_const_interval (n : Nat) :
    (List.range n).map (fun _ => ClosedInterval.mk (-2) 1)
      = List.replicate n (ClosedInterval.mk (-2) 1) := by
  rw [List.map_const', List.length_range]

/-- Helper: supplying the `[-2, 1]`-per-dimension domain explicitly yields
the same effective domain as supplying none. -/
theorem domainArg_replicate_eq_none (ev : LogLikelihood) :
    multistartDomainArg ev
        (some (List.replicate ev.num_hyperparameters (ClosedInterval.mk (-2) 1)))
      = multistartDomainArg ev none := by
  unfold multistartDomainArg
  cases hn : ev.num_hyperparameters with
  | zero => simp
  | succ k =>
      simp only [Option.getD, List.replicate, List.isEmpty_cons, List.isEmpty_nil,
        if_neg, Bool.false_eq_true, if_false, if_true]
      rw [range_map_const_interval]
      rfl

/-- C4: calling `multistart_hyperparameter_optimization` without a
`hyperparameter_domain` is the same call as supplying the closed interval
`[-2, 1]` (log-10 space) for each of the evaluator's
`num_hyperparameters` dimensions: the default is built before the
engine is invoked. -/
theorem multistart_default_domain_is_minus_two_one (eng : CGPEngine)
    (ev : LogLikelihood) (p : HyperparameterOptimizationParameters)
    (r : Option RandomnessSourceContainer) (max_num_threads : Nat) (st : Option Status) :
    multistart_hyperparameter_optimization eng ev p none r max_num_threads st
      = multistart_hyperparameter_optimization eng ev p
          (some (List.replicate ev.num_hyperparameters (ClosedInterval.mk (-2) 1)))
          r max_num_threads st := by
  unfold multistart_hyperparameter_optimization
  rw [domainArg_replicate_eq_none]

/-- Helper: the first-found-maximizer fold is a fixed point when no element
values strictly above the accumulator. -/
theorem foldl_best_of_no_improvement {α : Type} (value : α → ℚ) (l : List α) (p : α × ℚ)
    (hl : ∀ c ∈ l, value c ≤ p.2) :
    l.foldl (fun acc c => if acc.2 < value c then (c, value c) else acc) p = p := by
  induction l generalizing p with
  | nil => rfl
  | cons a t ih =>
      have ha : ¬ p.2 < value a := not_lt.mpr (hl a (List.mem_cons_self a t))
      simp only [List.foldl_cons]
      rw [if_neg ha]
      exact ih p (fun c hc => hl c (List.mem_cons_of_mem a hc))

/-- Helper: the modelled engine multistart, when the Latin-Hypercube
sampler produces `first :: rest` and no refined candidate values strictly
above the first initial point, returns exactly the first initial point and
writes `found_improvement = false` into the status dict. -/
theorem CGPEngine.multistart_no_improvement (e : CGPEngine)
    (params : HyperparameterOptimizationParameters) (domain : List ClosedInterval)
    (points_sampled : List (List ℚ)) (points_sampled_value : List ℚ)
    (dim num_sampled : Nat) (hyperparameters noise_variance : List ℚ)
    (max_num_threads : Nat) (randomness : RandomnessSourceContainer) (status : Status)
    (first : List ℚ) (rest : List (List ℚ))
    (h1 : e.lhsSample domain randomness params.num_multistarts = first :: rest)
    (h2 : ∀ s ∈ first :: rest,
        e.compute_log_likelihood points_sampled points_sampled_value dim num_sampled
            params.objective_type (e.refine params domain s) noise_variance
          ≤ e.compute_log_likelihood points_sampled points_sampled_value dim num_sampled
            params.objective_type first noise_variance) :
    e.multistart_hyperparameter_optimization params domain points_sampled
        points_sampled_value dim num_sampled hyperparameters noise_variance
        max_num_threads randomness status
      = (first, { status with found_improvement := some false }) := by
  unfold CGPEngine.multistart_hyperparameter_optimization
  rw [h1]
  have hmap : ∀ c ∈ (first :: rest).map (fun s => e.refine params domain s),
      e.compute_log_likelihood points_sampled points_sampled_value dim num_sampled
          params.objective_type c noise_variance
        ≤ e.compute_log_likelihood points_sampled points_sampled_value dim num_sampled
          params.objective_type first noise_variance := by
    intro c hc
    obtain ⟨s, hs, rfl⟩ := List.mem_map.mp hc
    exact h2 s hs
  have hfold := foldl_best_of_no_improvement
    (fun h => e.compute_log_likelihood points_sampled points_sampled_value dim num_sampled
      params.objective_type h noise_variance)
    ((first :: rest).map (fun s => e.refine params domain s))
    (first, e.compute_log_likelihood points_sampled points_sampled_value dim num_sampled
      params.objective_type first noise_variance)
    hmap
  simp only [hfold]
  rw [if_neg (lt_irrefl _)]

/-- C3: for every `multistart_hyperparameter_optimization` call in which no
refined candidate improves on the first Latin-Hypercube initial guess, the
returned hyperparameter vector is exactly that first randomly chosen
initial point (not the best of the bad starts) and the caller's status
dict reports `found_improvement = false`; the call returns normally rather
than raising. -/
theorem multistart_no_improvement_returns_first_start (eng : CGPEngine)
    (ev : LogLikelihood) (p : HyperparameterOptimizationParameters)
    (d : List ClosedInterval) (rnd : RandomnessSourceContainer)
    (max_num_threads : Nat) (st : Status)
    (first : List ℚ) (rest : List (List ℚ))
    (h1 : eng.lhsSample (multistartDomainArg ev (some d)) rnd p.num_multistarts
        = first :: rest)
    (h2 : ∀ s ∈ first :: rest,
        ev.objectiveAt eng
            (eng.refine { p with objective_type := ev._log_likelihood_type }
              (multistartDomainArg ev (some d)) s)
          ≤ ev.objectiveAt eng first) :
    (multistart_hyperparameter_optimization eng ev p (some d) (some rnd)
        max_num_threads (some st)).result = first ∧
    (multistart_hyperparameter_optimization eng ev p (some d) (some rnd)
        max_num_threads (some st)).statusOut
      = some { st with found_improvement := some false } := by
  have key := CGPEngine.multistart_no_improvement eng
    { p with objective_type := ev._log_likelihood_type }
    (multistartDomainArg ev (some d))
    ev._historical_data.points_sampled ev._historical_data.points_sampled_value
    ev._historical_data.dim ev._historical_data.num_sampled
    ev._covariance.get_hyperparameters ev._historical_data.noise_variance
    max_num_threads rnd st first rest h1 h2
  exact ⟨congrArg Prod.fst key, congrArg (fun q : List ℚ × Status => some q.2) key⟩

/-- C3 witness: a concrete engine whose constant objective never improves
on the first of its two Latin-Hypercube samples; the call returns that
first sample with `found_improvement = false`. -/
theorem multistart_no_improvement_returns_first_start_witness :
    (wEngine.lhsSample (multistartDomainArg wEval (some wDomain)) wRandomness
        wParams.num_multistarts = [0] :: [[1]]) ∧
    (∀ s ∈ ([0] :: [[1]] : List (List ℚ)),
        wEval.objectiveAt wEngine
            (wEngine.refine { wParams with objective_type := wEval._log_likelihood_type }
              (multistartDomainArg wEval (some wDomain)) s)
          ≤ wEval.objectiveAt wEngine [0]) ∧
    ((multistart_hyperparameter_optimization wEngine wEval wParams (some wDomain)
        (some wRandomness) 1 (some wStatus)).result = [0] ∧
      (multistart_hyperparameter_optimization wEngine wEval wParams (some wDomain)
        (some wRandomness) 1 (some wStatus)).statusOut
        = some { wStatus with found_improvement := some false }) :=
  ⟨rfl, fun _ _ => le_of_eq rfl,
    multistart_no_improvement_returns_first_start wEngine wEval wParams wDomain
      wRandomness 1 wStatus [0] [[1]] rfl (fun _ _ => le_of_eq rfl)⟩

/-- Helper: setting one heap cell leaves every other index reading the same
value. -/
theorem getD_set_of_ne {α : Type} (l : List α) (i j : Nat) (a d : α) (hij : i ≠ j) :
    (l.set i a).getD j d = l.getD j d := by
  induction l generalizing i j with
  | nil => rfl
  | cons b t ih =>
      cases i with
      | zero =>
          cases j with
          | zero => exact absurd rfl hij
          | succ j => rfl
      | succ i =>
          cases j with
          | zero => rfl
          | succ j => exact ih i j (fun h => hij (congrArg Nat.succ h))

/-- Helper: a freshly appended heap cell is read back at the old length. -/
theorem getD_append_length {α : Type} (l : List α) (a d : α) :
    (l ++ [a]).getD l.length d = a := by
  induction l with
  | nil => rfl
  | cons b t ih => exact ih

/-- Helper: after constructing an evaluator by deep copy from valid caller
references and then overwriting the caller's two original cells, the
evaluator dereferences to the same object as before the overwrite: its
fresh cells are untouched. -/
theorem init_on_heap_asObj_frame (hp hp1 : PyHeap) (e : LogLikelihoodRef)
    (cr dr : Nat) (typ : LogLikelihoodTypes) (c2 : Covariance) (d2 : HistoricalData)
    (hcr : cr < hp.covCells.length) (hdr : dr < hp.dataCells.length)
    (hinit : LogLikelihood.init_on_heap hp cr dr typ = (hp1, e)) :
    e.asObj ((hp1.setCov cr c2).setData dr d2) = e.asObj hp1 := by
  have hexp : LogLikelihood.init_on_heap hp cr dr typ
      = ({ covCells := hp.covCells ++ [hp.getCov cr]
           dataCells := hp.dataCells ++ [hp.getData dr] },
         { covRef := hp.covCells.length, dataRef := hp.dataCells.length, typ := typ }) := rfl
  rw [hexp] at hinit
  rw [Prod.mk.injEq] at hinit
  obtain ⟨hh, he⟩ := hinit
  subst hh
  subst he
  unfold LogLikelihoodRef.asObj PyHeap.setCov PyHeap.setData PyHeap.getCov PyHeap.getData
  simp only
  rw [getD_set_of_ne _ _ _ _ _ (Nat.ne_of_lt hcr), getD_set_of_ne _ _ _ _ _ (Nat.ne_of_lt hdr)]

/-- C5: the constructor's deep copies shield the evaluator from the caller:
for an evaluator built from valid caller references, overwriting the
caller's original covariance and historical-data objects afterwards leaves
the values returned by `compute_log_likelihood`,
`compute_grad_log_likelihood`, `dim` and `num_hyperparameters` unchanged. -/
theorem init_deepcopy_shields_evaluator_from_caller_mutation (eng : CGPEngine)
    (hp hp1 hp2 : PyHeap) (e : LogLikelihoodRef) (cr dr : Nat)
    (typ : LogLikelihoodTypes) (c2 : Covariance) (d2 : HistoricalData)
    (hyperparameters : List ℚ)
    (hcr : cr < hp.covCells.length) (hdr : dr < hp.dataCells.length)
    (hinit : LogLikelihood.init_on_heap hp cr dr typ = (hp1, e))
    (hmut : hp2 = (hp1.setCov cr c2).setData dr d2) :
    (e.compute_log_likelihood hp2 eng hyperparameters).2
        = (e.compute_log_likelihood hp1 eng hyperparameters).2 ∧
    (e.compute_grad_log_likelihood hp2 eng hyperparameters).2
        = (e.compute_grad_log_likelihood hp1 eng hyperparameters).2 ∧
    e.dim hp2 = e.dim hp1 ∧
    e.num_hyperparameters hp2 = e.num_hyperparameters hp1 := by
  subst hmut
  have key := init_on_heap_asObj_frame hp hp1 e cr dr typ c2 d2 hcr hdr hinit
  refine ⟨?_, ?_, ?_, ?_⟩
  · show (LogLikelihood.compute_log_likelihood
        (e.asObj ((hp1.setCov cr c2).setData dr d2)) eng hyperparameters).2
      = (LogLikelihood.compute_log_likelihood (e.asObj hp1) eng hyperparameters).2
    rw [key]
  · show (LogLikelihood.compute_grad_log_likelihood
        (e.asObj ((hp1.setCov cr c2).setData dr d2)) eng hyperparameters).2
      = (LogLikelihood.compute_grad_log_likelihood (e.asObj hp1) eng hyperparameters).2
    rw [key]
  · show (e.asObj ((hp1.setCov cr c2).setData dr d2)).dim = (e.asObj hp1).dim
    rw [key]
  · show (e.asObj ((hp1.setCov cr c2).setData dr d2)).num_hyperparameters
      = (e.asObj hp1).num_hyperparameters
    rw [key]

/-- C5 witness: a one-cell-each heap; construct the evaluator from refs
0/0, then overwrite both originals; every listed observation is unchanged. -/
theorem init_deepcopy_shields_evaluator_from_caller_mutation_witness :
    (0 < wHeap.covCells.length) ∧ (0 < wHeap.dataCells.length) ∧
    (LogLikelihood.init_on_heap wHeap 0 0 LogLikelihoodTypes.log_marginal_likelihood
      = (wHeap1, wERef)) ∧
    (wHeap2 = (wHeap1.setCov 0 wCov2).setData 0 wData2) ∧
    ((wERef.compute_log_likelihood wHeap2 wEngine [9]).2
        = (wERef.compute_log_likelihood wHeap1 wEngine [9]).2 ∧
      (wERef.compute_grad_log_likelihood wHeap2 wEngine [9]).2
        = (wERef.compute_grad_log_likelihood wHeap1 wEngine [9]).2 ∧
      wERef.dim wHeap2 = wERef.dim wHeap1 ∧
      wERef.num_hyperparameters wHeap2 = wERef.num_hyperparameters wHeap1) :=
  ⟨Nat.zero_lt_one, Nat.zero_lt_one, rfl, rfl,
    init_deepcopy_shields_evaluator_from_caller_mutation wEngine wHeap wHeap1 wHeap2
      wERef 0 0 LogLikelihoodTypes.log_marginal_likelihood wCov2 wData2 [9]
      Nat.zero_lt_one Nat.zero_lt_one rfl rfl⟩
